import Mathlib

/-!
Shallow embedding of the appointment service
(`AppointmentsService`, src/unnamed/part_000) of the MedOn backend.

Time is modelled as `Int` milliseconds since the Unix epoch (a UTC
instant).  `moment(x).utc().toDate()` does not change the instant a
`Date` denotes (`.utc()` only switches display mode), so the UTC
normalisation performed on appointment timestamps is the identity on
instants.  `moment().startOf('day')`, however, is midnight of the
*server-local* day, so day boundaries depend on the server's timezone
offset; the embedding therefore threads an explicit timezone offset
`tz` (milliseconds east of UTC) and an explicit clock value `now`
through the queries.

The relational store is modelled as an in-memory list of rows; TypeORM
query builders become filter / sort / drop / take pipelines over that
list.  SQL combines all `where`/`andWhere` conditions by conjunction
regardless of call order, and `skip`/`take` apply after `orderBy`,
which is what the pipeline computes.
-/

namespace MedOn

/-- Milliseconds in one day, the unit used by `moment.add(_, 'days')`. -/
def msPerDay : Int := 86400000

/-- Milliseconds in one hour (used only to build concrete instants). -/
def msPerHour : Int := 3600000

/-- `moment(x).utc().toDate()`: the identity on the underlying instant. -/
def momentUtc (t : Int) : Int := t

/-- `moment().startOf('day').toDate()` on a server whose local clock is
`tz` milliseconds ahead of UTC: the instant of the most recent
server-local midnight.  `Int.fdiv` floors, matching calendar days for
instants before the epoch as well. -/
def localStartOfDay (now tz : Int) : Int :=
  (now + tz).fdiv msPerDay * msPerDay - tz

/-- `moment().endOf('day').toDate()`: 23:59:59.999 of the server-local day. -/
def localEndOfDay (now tz : Int) : Int :=
  localStartOfDay now tz + msPerDay - 1

/-- The `Role` enum (`@common/enums`).  `unrecognized` stands for any
database value that is neither of the two enum members, carrying the
raw value. -/
inductive Role where
  | LocalDoctor
  | RemoteDoctor
  | unrecognized (raw : String)
  deriving DecidableEq, Repr

/-- The `Filter` enum (`@common/enums`).  `unrecognized` stands for any
request value outside the enum, carrying the raw value. -/
inductive Filter where
  | today
  | future
  | past
  | unrecognized (raw : String)
  deriving DecidableEq, Repr

/-- The raw string a filter value interpolates to in a template string. -/
def Filter.raw : Filter → String
  | .today => "today"
  | .future => "future"
  | .past => "past"
  | .unrecognized s => s

/-- The HTTP exception classes the service throws. -/
inductive AppError where
  | notFound (msg : String)
  | badRequest (msg : String)
  | conflict (msg : String)
  | unauthorized (msg : String)
  deriving DecidableEq, Repr

/-- Discriminator for the `NotFoundException` class. -/
def AppError.isNotFound : AppError → Bool
  | .notFound _ => true
  | _ => false

/-- A row of the `Appointment` entity (the columns the service reads). -/
structure Appointment where
  id : Nat
  link : String
  startTime : Int
  endTime : Int
  localDoctorId : Nat
  remoteDoctorId : Nat
  patientId : Nat
  deriving DecidableEq, Repr

/-- A row of the `Doctor` entity (the columns the service reads). -/
structure Doctor where
  id : Nat
  role : Role
  deriving DecidableEq, Repr

/-- `CreateAppointmentDto`: start/end arrive as date-time values, here
already as the instants they denote. -/
structure CreateAppointmentDto where
  link : String
  startTime : Int
  endTime : Int
  localDoctorId : Nat
  remoteDoctorId : Nat
  patientId : Nat
  deriving DecidableEq, Repr

/-- `PaginationOptionsDto`. -/
structure PaginationOptionsDto where
  offset : Nat
  limit : Nat
  filter : Filter
  showAll : Bool
  deriving DecidableEq, Repr

/-- The relational store: the appointment and doctor tables, plus the
id the next inserted appointment row receives. -/
structure Store where
  appointments : List Appointment
  doctors : List Doctor
  nextId : Nat
  deriving DecidableEq, Repr

/-- `getAllAppointmentsByDoctorId`: rows where the doctor participates in
either role; an empty result set is rejected with
`UnauthorizedException('Appointments no found!')`. -/
def getAllAppointmentsByDoctorId (st : Store) (id : Nat) :
    Except AppError (List Appointment) :=
  let appointments := st.appointments.filter fun a =>
    a.localDoctorId == id || a.remoteDoctorId == id
  if appointments.length = 0 then
    .error (.unauthorized "Appointments no found!")
  else
    .ok appointments

/-- `getAppointmentById`: `findOne` by primary key. -/
def getAppointmentById (st : Store) (id : Nat) : Option Appointment :=
  st.appointments.find? fun a => a.id == id

/-- The ways a `repository.save` call can reject. -/
inductive StoreFailure where
  | uniqueViolation
  | foreignKeyViolation
  | outage
  deriving DecidableEq, Repr

/-- Two half-open time intervals `[s, e)` intersect. -/
def overlapsTime (a b : Appointment) : Bool :=
  a.startTime < b.endTime && b.startTime < a.endTime

/-- The new row references a doctor (in either role) that the existing
row also references (in either role). -/
def sharesDoctor (a b : Appointment) : Bool :=
  a.localDoctorId == b.localDoctorId || a.localDoctorId == b.remoteDoctorId ||
    a.remoteDoctorId == b.localDoctorId || a.remoteDoctorId == b.remoteDoctorId

/-- The new row overlaps an existing appointment of one of its doctors. -/
def saveConflicts (existing : List Appointment) (a : Appointment) : Bool :=
  existing.any fun b => sharesDoctor a b && overlapsTime a b

/-- Modelled from the spec: the backing store's save with its
uniqueness/exclusion constraint.  The `Appointment` entity
(`@entities/Appointments`) is not under src/; the spec states the
invariant "no two appointments for the same doctor (local or remote
role) may overlap in time — enforced by the backing store's
uniqueness/exclusion constraint; violations surface as a conflict
error". -/
def storeSave (st : Store) (a : Appointment) : Except StoreFailure Appointment :=
  if saveConflicts st.appointments a then .error .uniqueViolation else .ok a

/-- The row `createAppointment` builds from the DTO: timestamps pass
through `moment(_).utc().toDate()`, the id is store-assigned. -/
def toNewAppointment (st : Store) (dto : CreateAppointmentDto) : Appointment :=
  { id := st.nextId
    link := dto.link
    startTime := momentUtc dto.startTime
    endTime := momentUtc dto.endTime
    localDoctorId := dto.localDoctorId
    remoteDoctorId := dto.remoteDoctorId
    patientId := dto.patientId }

/-- The `try`/`catch` around `repository.save`: any rejection whatsoever
is rethrown as the one fixed `ConflictException`. -/
def createAppointmentWith (res : Except StoreFailure Appointment) :
    Except AppError Appointment :=
  match res with
  | .ok a => .ok a
  | .error _ =>
      .error (.conflict "Error: An appointment with this time interval already exists.")

/-- `createAppointment`: normalise the timestamps, save, map any save
failure to `ConflictException`. -/
def createAppointment (st : Store) (dto : CreateAppointmentDto) :
    Except AppError Appointment :=
  createAppointmentWith (storeSave st (toNewAppointment st dto))

/-- `deleteAppointment`: `repository.delete(id)` removes the matching
rows (zero or one) and never rejects on a missing id. -/
def deleteAppointment (st : Store) (id : Nat) : Except AppError Store :=
  .ok { st with appointments := st.appointments.filter fun a => !(a.id == id) }

/-- `postLinkAppointment`: `repository.update(id, \x7b link \x7d)` sets the
link column of the matching rows (zero or one) and never rejects on a
missing id. -/
def postLinkAppointment (st : Store) (id : Nat) (link : String) :
    Except AppError Store :=
  .ok { st with appointments := st.appointments.map fun a =>
          if a.id == id then { a with link := link } else a }

/-- `getAppointmentsByPatientId`: rows referencing the patient; an empty
result is valid. -/
def getAppointmentsByPatientId (st : Store) (id : Nat) : List Appointment :=
  st.appointments.filter fun a => a.patientId == id

/-- `getActiveAppointmentByDoctorId`: `getOne` on
`start_time < :now AND end_time > :now` and participation in either
role; no `orderBy`, so the row (if any) is the first match. -/
def getActiveAppointmentByDoctorId (st : Store) (now : Int) (id : Nat) :
    Option Appointment :=
  (st.appointments.filter fun a =>
    decide (a.startTime < now) && decide (a.endTime > now) &&
      (a.remoteDoctorId == id || a.localDoctorId == id)).head?

/-- The role branch of `getAllAppointments`: a local doctor is scoped to
`localDoctorId = id` unless `showAll` is set (then no doctor condition
is added); a remote doctor is scoped to `remoteDoctorId = id`; any
other role throws `BadRequestException('Invalid role')`. -/
def roleScope (role : Role) (id : Nat) (showAll : Bool) :
    Except AppError (Appointment → Bool) :=
  match role with
  | .LocalDoctor =>
      if showAll then .ok fun _ => true
      else .ok fun a => a.localDoctorId == id
  | .RemoteDoctor => .ok fun a => a.remoteDoctorId == id
  | .unrecognized _ => .error (.badRequest "Invalid role")

/-- `ORDER BY appointment.startTime ASC` over a result list. -/
def startLE (a b : Appointment) : Prop := a.startTime ≤ b.startTime

instance : DecidableRel startLE :=
  fun a b => inferInstanceAs (Decidable (a.startTime ≤ b.startTime))

instance : IsTotal Appointment startLE :=
  ⟨fun a b => Int.le_total a.startTime b.startTime⟩

instance : IsTrans Appointment startLE :=
  ⟨fun _ _ _ h1 h2 => le_trans h1 h2⟩

/-- `ORDER BY appointment.endTime ASC` over a result list. -/
def endLE (a b : Appointment) : Prop := a.endTime ≤ b.endTime

instance : DecidableRel endLE :=
  fun a b => inferInstanceAs (Decidable (a.endTime ≤ b.endTime))

instance : IsTotal Appointment endLE :=
  ⟨fun a b => Int.le_total a.endTime b.endTime⟩

instance : IsTrans Appointment endLE :=
  ⟨fun _ _ _ h1 h2 => le_trans h1 h2⟩

def sortByStart (l : List Appointment) : List Appointment :=
  List.insertionSort startLE l

def sortByEnd (l : List Appointment) : List Appointment :=
  List.insertionSort endLE l

/-- `getAllAppointments`.

The source declares `let whereClause: string;` and passes it to
`.where(whereClause, \x7b startOfDay, endOfDay, now \x7d)` *before* the
`switch` on the filter assigns it.  At that call `whereClause` is still
`undefined`, and TypeORM's `where` adds no condition for an `undefined`
argument (it only records the parameters), so the base time clause —
including the whole `today` window and every use of `endOfDay` and
`now` — is never part of the query.  The `future` and `past` branches
re-state their windows through a live `andWhere`, so only those
survive.  The embedding reproduces the query that actually runs:
doctor lookup, role scope, then per-filter pipeline of (for
future/past) window filter, sort, `skip(offset * limit)`,
`take(limit)`. -/
def getAllAppointments (st : Store) (id : Nat) (pag : PaginationOptionsDto)
    (now tz : Int) : Except AppError (List Appointment) :=
  match st.doctors.find? fun d => d.id == id with
  | none => .error (.notFound "Doctor not found")
  | some doctor =>
    let startOfDay := localStartOfDay now tz
    match roleScope doctor.role id pag.showAll with
    | .error e => .error e
    | .ok scope =>
      let base := st.appointments.filter scope
      match pag.filter with
      | .today =>
          .ok (((sortByStart base).drop (pag.offset * pag.limit)).take pag.limit)
      | .future =>
          let nextDay := startOfDay + (Int.ofNat pag.offset + 1) * msPerDay
          let rows := sortByStart (base.filter fun a =>
            decide (startOfDay ≤ a.startTime) && decide (a.startTime < nextDay))
          .ok ((rows.drop (pag.offset * pag.limit)).take pag.limit)
      | .past =>
          let prevDay := startOfDay - (Int.ofNat pag.offset + 1) * msPerDay + (msPerDay - 1)
          let rows := sortByEnd (base.filter fun a =>
            decide (prevDay ≤ a.endTime) && decide (a.endTime < startOfDay))
          .ok ((rows.drop (pag.offset * pag.limit)).take pag.limit)
      | .unrecognized s =>
          .error (.badRequest ("Invalid filter: " ++ s))

/-! Concrete fixtures used to evaluate the operations on explicit inputs. -/

/-- A store with no rows at all. -/
def emptyStore : Store := { appointments := [], doctors := [], nextId := 1 }

/-! Shared helper lemmas. -/

/-- Updating the link of an absent id maps every row to itself. -/
theorem map_setLink_of_absent (l : List Appointment) (id : Nat) (link : String)
    (h : ∀ a ∈ l, a.id ≠ id) :
    (l.map fun a => if a.id == id then { a with link := link } else a) = l := by
  induction l with
  | nil => rfl
  | cons a t ih =>
    have ha : (a.id == id) = false := by
      simpa using h a (List.mem_cons_self a t)
    simp only [List.map_cons, ha, if_neg, Bool.false_eq_true, not_false_iff]
    rw [ih fun b hb => h b (List.mem_cons_of_mem a hb)]

/-- Deleting an absent id keeps every row. -/
theorem filter_delete_of_absent (l : List Appointment) (id : Nat)
    (h : ∀ a ∈ l, a.id ≠ id) :
    (l.filter fun a => !(a.id == id)) = l := by
  apply List.filter_eq_self.mpr
  intro a ha
  simpa using h a ha

/-! Claim theorems. -/

/-- Claim C7 counterexample: on a store with no appointments, the
unfiltered listing for doctor 1 fails with the Unauthorized signal
(`UnauthorizedException('Appointments no found!')`), which is not a
NotFound signal. -/
theorem c7_counterexample :
    getAllAppointmentsByDoctorId emptyStore 1 =
        .error (.unauthorized "Appointments no found!") ∧
    AppError.isNotFound (AppError.unauthorized "Appointments no found!") = false :=
  ⟨rfl, rfl⟩

/-- Claim C7 amended: for every doctor with zero appointments (as local
or remote participant), getAllAppointmentsByDoctorId fails with an
Unauthorized signal carrying the message "Appointments no found!",
rather than returning an empty list. -/
theorem c7_empty_listByDoctor_fails (st : Store) (id : Nat)
    (h : ∀ a ∈ st.appointments, a.localDoctorId ≠ id ∧ a.remoteDoctorId ≠ id) :
    getAllAppointmentsByDoctorId st id =
      .error (.unauthorized "Appointments no found!") := by
  unfold getAllAppointmentsByDoctorId
  have hnil : (st.appointments.filter fun a =>
      a.localDoctorId == id || a.remoteDoctorId == id) = [] := by
    rw [List.filter_eq_nil_iff]
    intro a ha
    simp [(h a ha).1, (h a ha).2]
  simp [hnil]

/-- Witness for C7: the amended statement evaluated on the empty store. -/
theorem c7_empty_listByDoctor_fails_witness :
    getAllAppointmentsByDoctorId emptyStore 2 =
      .error (.unauthorized "Appointments no found!") :=
  c7_empty_listByDoctor_fails emptyStore 2 (by intro a ha; cases ha)

/-- Claim C9: deleteAppointment on a missing id completes without error
as a no-op; postLinkAppointment on a missing id completes without error
and mutates nothing; when the id exists, postLinkAppointment changes
only the link field of the matching row, leaving every other field of
that row, every other appointment, and the doctor table unchanged. -/
theorem c9_delete_updateLink_frame :
    (∀ st id, (∀ a ∈ st.appointments, a.id ≠ id) →
        deleteAppointment st id = .ok st)
    ∧ (∀ st id link, (∀ a ∈ st.appointments, a.id ≠ id) →
        postLinkAppointment st id link = .ok st)
    ∧ ∀ st id link st', postLinkAppointment st id link = .ok st' →
        st'.doctors = st.doctors ∧
        st'.appointments.length = st.appointments.length ∧
        ∀ i (h : i < st.appointments.length) (h' : i < st'.appointments.length),
          (st.appointments[i].id ≠ id →
              st'.appointments[i] = st.appointments[i]) ∧
          (st.appointments[i].id = id →
              st'.appointments[i] = { st.appointments[i] with link := link }) := by
  refine ⟨?_, ?_, ?_⟩
  · intro st id h
    unfold deleteAppointment
    rw [filter_delete_of_absent st.appointments id h]
  · intro st id link h
    unfold postLinkAppointment
    rw [map_setLink_of_absent st.appointments id link h]
  · intro st id link st' hok
    unfold postLinkAppointment at hok
    have hst : st' = { st with appointments := st.appointments.map fun a =>
        if a.id == id then { a with link := link } else a } :=
      (Except.ok.inj hok).symm
    subst hst
    refine ⟨rfl, by simp, ?_⟩
    intro i h h'
    constructor
    · intro hne
      simp [List.getElem_map, hne]
    · intro heq
      simp [List.getElem_map, heq]

/-- A one-row appointment table used to probe the frame conditions. -/
def c9Apt : Appointment :=
  { id := 1
    link := "x"
    startTime := 0
    endTime := 1
    localDoctorId := 1
    remoteDoctorId := 2
    patientId := 3 }

/-- A store holding only `c9Apt`. -/
def c9Store : Store := { appointments := [c9Apt], doctors := [], nextId := 2 }

/-- Witness for C9: the missing-id delete branch evaluated on `c9Store`
with probe id 9. -/
theorem c9_delete_updateLink_frame_witness :
    deleteAppointment c9Store 9 = .ok c9Store :=
  c9_delete_updateLink_frame.1 c9Store 9 (by decide)

/-- Claim C10: every failure of the store's save — a uniqueness
violation, a foreign-key violation, or an outage alike — is surfaced by
createAppointment's catch-all as the same Conflict signal with the
fixed message about an existing time interval; and createAppointment is
exactly that catch-all applied to the save result. -/
theorem c10_any_save_failure_becomes_conflict :
    (∀ f : StoreFailure, createAppointmentWith (.error f) =
        .error (.conflict
          "Error: An appointment with this time interval already exists."))
    ∧ ∀ st dto, createAppointment st dto =
        createAppointmentWith (storeSave st (toNewAppointment st dto)) :=
  ⟨fun _ => rfl, fun _ _ => rfl⟩

/-- A doctor with the local role, id 1. -/
def localDoc : Doctor := { id := 1, role := .LocalDoctor }

/-- A doctor with an unrecognized role value, id 3. -/
def strangeDoc : Doctor := { id := 3, role := .unrecognized "admin" }

/-- A doctor table holding `localDoc` and `strangeDoc`. -/
def c8Store : Store :=
  { appointments := [], doctors := [localDoc, strangeDoc], nextId := 1 }

/-- A pagination request carrying an unrecognized filter value. -/
def weeklyPag : PaginationOptionsDto :=
  { offset := 0, limit := 10, filter := .unrecognized "weekly", showAll := false }

/-- Every appointment in a successful getAllAppointments result is a
stored row accepted by the role scope predicate. -/
theorem mem_getAllAppointments (st : Store) (id : Nat)
    (pag : PaginationOptionsDto) (now tz : Int) (d : Doctor)
    (scope : Appointment → Bool) (l : List Appointment)
    (hd : st.doctors.find? (fun x => x.id == id) = some d)
    (hs : roleScope d.role id pag.showAll = .ok scope)
    (hok : getAllAppointments st id pag now tz = .ok l) :
    ∀ a ∈ l, a ∈ st.appointments ∧ scope a = true := by
  intro a ha
  simp only [getAllAppointments, hd, hs] at hok
  have hbase : a ∈ st.appointments.filter scope →
      a ∈ st.appointments ∧ scope a = true := by
    intro h
    exact List.mem_filter.mp h
  cases hf : pag.filter with
  | today =>
    rw [hf] at hok
    rw [← Except.ok.inj hok] at ha
    exact hbase (by
      simpa [sortByStart] using
        List.mem_of_mem_drop (List.mem_of_mem_take ha))
  | future =>
    rw [hf] at hok
    rw [← Except.ok.inj hok] at ha
    have hmem := List.mem_of_mem_drop (List.mem_of_mem_take ha)
    rw [sortByStart, List.mem_insertionSort] at hmem
    exact hbase (List.mem_of_mem_filter hmem)
  | past =>
    rw [hf] at hok
    rw [← Except.ok.inj hok] at ha
    have hmem := List.mem_of_mem_drop (List.mem_of_mem_take ha)
    rw [sortByEnd, List.mem_insertionSort] at hmem
    exact hbase (List.mem_of_mem_filter hmem)
  | unrecognized s =>
    rw [hf] at hok
    cases hok

/-- Claim C8: getAllAppointments fails with NotFound when the
requesting doctor id is unknown; with InvalidRequest (BadRequest) when
the doctor's role is unrecognized; and with InvalidRequest (BadRequest,
naming the raw value) when the filter value is unrecognized. -/
theorem c8_listAll_error_signals (st : Store) (id : Nat)
    (pag : PaginationOptionsDto) (now tz : Int) :
    (st.doctors.find? (fun x => x.id == id) = none →
        getAllAppointments st id pag now tz =
          .error (.notFound "Doctor not found"))
    ∧ (∀ d raw, st.doctors.find? (fun x => x.id == id) = some d →
        d.role = .unrecognized raw →
        getAllAppointments st id pag now tz =
          .error (.badRequest "Invalid role"))
    ∧ ∀ d raw, st.doctors.find? (fun x => x.id == id) = some d →
        (d.role = .LocalDoctor ∨ d.role = .RemoteDoctor) →
        pag.filter = .unrecognized raw →
        getAllAppointments st id pag now tz =
          .error (.badRequest ("Invalid filter: " ++ raw)) := by
  refine ⟨?_, ?_, ?_⟩
  · intro hmiss
    simp only [getAllAppointments, hmiss]
  · intro d raw hd hrole
    simp only [getAllAppointments, hd, hrole, roleScope]
  · intro d raw hd hrole hf
    rcases hrole with h | h
    · cases hsa : pag.showAll <;>
        simp only [getAllAppointments, hd, h, roleScope, hsa, hf] <;> rfl
    · simp only [getAllAppointments, hd, h, roleScope, hf]

/-- Witness for C8: the unrecognized-filter branch evaluated on
`c8Store` for the local doctor and the raw filter value "weekly". -/
theorem c8_listAll_error_signals_witness :
    getAllAppointments c8Store 1 weeklyPag 0 0 =
      .error (.badRequest ("Invalid filter: " ++ "weekly")) :=
  (c8_listAll_error_signals c8Store 1 weeklyPag 0 0).2.2 localDoc "weekly"
    rfl (Or.inl rfl) rfl

/-- Claim C3: visibility scope in getAllAppointments follows the
requesting doctor's role — a local doctor's successful results all have
them as the local participant unless showAll is set, in which case the
scope predicate accepts every row; a remote doctor's successful results
all have them as the remote participant; an unrecognized role fails
with the InvalidRequest signal. -/
theorem c3_role_visibility (st : Store) (id : Nat)
    (pag : PaginationOptionsDto) (now tz : Int) (d : Doctor)
    (hd : st.doctors.find? (fun x => x.id == id) = some d) :
    (d.role = .LocalDoctor → pag.showAll = false →
        ∀ l, getAllAppointments st id pag now tz = .ok l →
          ∀ a ∈ l, a.localDoctorId = id)
    ∧ (d.role = .LocalDoctor → pag.showAll = true →
        roleScope d.role id pag.showAll = .ok fun _ => true)
    ∧ (d.role = .RemoteDoctor →
        ∀ l, getAllAppointments st id pag now tz = .ok l →
          ∀ a ∈ l, a.remoteDoctorId = id)
    ∧ ∀ raw, d.role = .unrecognized raw →
        getAllAppointments st id pag now tz =
          .error (.badRequest "Invalid role") := by
  refine ⟨?_, ?_, ?_, ?_⟩
  · intro hrole hsa l hok a ha
    have hs : roleScope d.role id pag.showAll =
        .ok fun x => x.localDoctorId == id := by
      simp only [hrole, roleScope, hsa]
      rfl
    have hsc := (mem_getAllAppointments st id pag now tz d _ l hd hs hok a ha).2
    simpa using hsc
  · intro hrole hsa
    simp only [hrole, roleScope, hsa]
    rfl
  · intro hrole l hok a ha
    have hs : roleScope d.role id pag.showAll =
        .ok fun x => x.remoteDoctorId == id := by
      rw [hrole]
      rfl
    have hsc := (mem_getAllAppointments st id pag now tz d _ l hd hs hok a ha).2
    simpa using hsc
  · intro raw hrole
    simp only [getAllAppointments, hd, hrole, roleScope]

/-- Witness for C3: the unrecognized-role branch evaluated on `c8Store`
for doctor 3. -/
theorem c3_role_visibility_witness :
    getAllAppointments c8Store 3 weeklyPag 0 0 =
      .error (.badRequest "Invalid role") :=
  (c3_role_visibility c8Store 3 weeklyPag 0 0 strangeDoc rfl).2.2.2 "admin" rfl

/-- Claim C4 (with the store's overlap constraint modelled from the
spec): when the new row's (start, end) pair does not overlap any
existing appointment of either referenced doctor, createAppointment
succeeds and the returned appointment's startTime and endTime equal the
UTC-normalized inputs; when it does overlap such an appointment,
createAppointment fails with the Conflict signal. -/
theorem c4_create_success_and_conflict (st : Store)
    (dto : CreateAppointmentDto) :
    (saveConflicts st.appointments (toNewAppointment st dto) = false →
        ∃ a, createAppointment st dto = .ok a ∧
          a.startTime = momentUtc dto.startTime ∧
          a.endTime = momentUtc dto.endTime)
    ∧ (saveConflicts st.appointments (toNewAppointment st dto) = true →
        createAppointment st dto =
          .error (.conflict
            "Error: An appointment with this time interval already exists.")) := by
  constructor
  · intro h
    refine ⟨toNewAppointment st dto, ?_, rfl, rfl⟩
    unfold createAppointment storeSave
    rw [h]
    rfl
  · intro h
    unfold createAppointment storeSave
    rw [h]
    rfl

/-- The creation request used to evaluate C4 concretely. -/
def c4Dto : CreateAppointmentDto :=
  { link := "https://meet.example/1"
    startTime := 0
    endTime := msPerHour
    localDoctorId := 1
    remoteDoctorId := 2
    patientId := 3 }

/-- Witness for C4: the success branch evaluated on the empty store. -/
theorem c4_create_success_and_conflict_witness :
    ∃ a, createAppointment emptyStore c4Dto = .ok a ∧
      a.startTime = momentUtc c4Dto.startTime ∧
      a.endTime = momentUtc c4Dto.endTime :=
  (c4_create_success_and_conflict emptyStore c4Dto).1 rfl

/-- A local doctor with id 1, the requester of the C1 scenario. -/
def c1Doctor : Doctor := { id := 1, role := .LocalDoctor }

/-- An appointment lying entirely within the previous UTC day. -/
def c1Apt : Appointment :=
  { id := 1
    link := ""
    startTime := -msPerDay
    endTime := -msPerDay + msPerHour
    localDoctorId := 1
    remoteDoctorId := 2
    patientId := 3 }

/-- A store holding `c1Apt` and `c1Doctor`. -/
def c1Store : Store :=
  { appointments := [c1Apt], doctors := [c1Doctor], nextId := 2 }

/-- The today-filter request of the C1 scenario: offset 0, limit 10. -/
def c1Pag : PaginationOptionsDto :=
  { offset := 0, limit := 10, filter := .today, showAll := false }

/-- Claim C1 (code bug, evaluated at the failing input): at noon UTC of
the epoch day, the today filter returns an appointment that ended
before start-of-today.  The source assigns the today window to
`whereClause` only inside the `switch`, after `.where(whereClause, …)`
has already consumed `undefined`, so no time condition reaches the
query and the assignment is dead code. -/
theorem c1_today_filter_ignores_window :
    getAllAppointments c1Store 1 c1Pag 43200000 0 = .ok [c1Apt] ∧
    c1Apt.endTime < localStartOfDay 43200000 0 :=
  ⟨rfl, by decide⟩

/-- A remote doctor with id 2, the requester of the C2 scenario. -/
def c2Doctor : Doctor := { id := 2, role := .RemoteDoctor }

/-- First of three appointments starting today, one hour after UTC
midnight. -/
def c2Apt1 : Appointment :=
  { id := 1
    link := ""
    startTime := msPerHour
    endTime := msPerHour + 1800000
    localDoctorId := 1
    remoteDoctorId := 2
    patientId := 3 }

/-- Second appointment, two hours after UTC midnight. -/
def c2Apt2 : Appointment :=
  { id := 2
    link := ""
    startTime := 2 * msPerHour
    endTime := 2 * msPerHour + 1800000
    localDoctorId := 1
    remoteDoctorId := 2
    patientId := 3 }

/-- Third appointment, three hours after UTC midnight. -/
def c2Apt3 : Appointment :=
  { id := 3
    link := ""
    startTime := 3 * msPerHour
    endTime := 3 * msPerHour + 1800000
    localDoctorId := 1
    remoteDoctorId := 2
    patientId := 3 }

/-- A store holding the three appointments and `c2Doctor`. -/
def c2Store : Store :=
  { appointments := [c2Apt1, c2Apt2, c2Apt3], doctors := [c2Doctor], nextId := 4 }

/-- The future-filter request of the C2 scenario: offset 2, limit 1. -/
def c2Pag : PaginationOptionsDto :=
  { offset := 2, limit := 1, filter := .future, showAll := false }

/-- Claim C2 counterexample: with filter future and offset 2, the
returned appointment starts three hours after start-of-today — before
start-of-today + 2 days — so the result is not restricted to the day
bucket [start-of-today + 2 days, start-of-today + 3 days) the claim
describes: the live lower bound in the code is start-of-today itself. -/
theorem c2_counterexample :
    getAllAppointments c2Store 2 c2Pag 43200000 0 = .ok [c2Apt3] ∧
    c2Apt3.startTime < localStartOfDay 43200000 0 + 2 * msPerDay :=
  ⟨rfl, by decide⟩

/-- Claim C2 amended: for a doctor with a recognized role and filter
future with offset N, getAllAppointments restricts to the window of
appointments whose startTime is at or after start-of-today (not
start-of-today plus N days) and strictly before start-of-today plus
N+1 days, orders that window by startTime ascending, and then skips
N × limit rows and takes limit rows. -/
theorem c2_future_window (st : Store) (id : Nat) (pag : PaginationOptionsDto)
    (now tz : Int) (d : Doctor) (scope : Appointment → Bool)
    (hd : st.doctors.find? (fun x => x.id == id) = some d)
    (hs : roleScope d.role id pag.showAll = .ok scope)
    (hf : pag.filter = .future) :
    ∃ bucket : List Appointment,
      getAllAppointments st id pag now tz =
        .ok ((bucket.drop (pag.offset * pag.limit)).take pag.limit) ∧
      bucket.Perm (st.appointments.filter fun a =>
        (decide (localStartOfDay now tz ≤ a.startTime) &&
          decide (a.startTime <
            localStartOfDay now tz + (Int.ofNat pag.offset + 1) * msPerDay)) &&
          scope a) ∧
      bucket.Pairwise startLE := by
  refine ⟨sortByStart ((st.appointments.filter scope).filter fun a =>
    decide (localStartOfDay now tz ≤ a.startTime) &&
      decide (a.startTime <
        localStartOfDay now tz + (Int.ofNat pag.offset + 1) * msPerDay)),
    ?_, ?_, ?_⟩
  · simp only [getAllAppointments, hd, hs, hf]
  · rw [List.filter_filter]
    exact List.perm_insertionSort startLE _
  · exact List.sorted_insertionSort startLE _

/-- Witness for C2: the amended statement evaluated on the C2 scenario
store. -/
theorem c2_future_window_witness :
    ∃ bucket : List Appointment,
      getAllAppointments c2Store 2 c2Pag 43200000 0 =
        .ok ((bucket.drop (c2Pag.offset * c2Pag.limit)).take c2Pag.limit) ∧
      bucket.Perm (c2Store.appointments.filter fun a =>
        (decide (localStartOfDay 43200000 0 ≤ a.startTime) &&
          decide (a.startTime <
            localStartOfDay 43200000 0 + (Int.ofNat c2Pag.offset + 1) * msPerDay)) &&
          (a.remoteDoctorId == 2)) ∧
      bucket.Pairwise startLE :=
  c2_future_window c2Store 2 c2Pag 43200000 0 c2Doctor
    (fun a => a.remoteDoctorId == 2) rfl rfl rfl

/-- An appointment whose window is [0, 100), involving doctor 1 as
local participant. -/
def c5Apt : Appointment :=
  { id := 1
    link := ""
    startTime := 0
    endTime := 100
    localDoctorId := 1
    remoteDoctorId := 2
    patientId := 3 }

/-- A store holding only `c5Apt`. -/
def c5Store : Store := { appointments := [c5Apt], doctors := [], nextId := 2 }

/-- Claim C5 counterexample: at now = startTime, now lies in the
half-open window [start, end) of a stored appointment involving
doctor 1, yet the query returns none — the code requires
start_time < now strictly. -/
theorem c5_counterexample :
    getActiveAppointmentByDoctorId c5Store 0 1 = none ∧
    c5Apt ∈ c5Store.appointments ∧
    c5Apt.startTime ≤ 0 ∧ (0 : Int) < c5Apt.endTime ∧
    (c5Apt.remoteDoctorId = 1 ∨ c5Apt.localDoctorId = 1) :=
  ⟨rfl, List.mem_cons_self c5Apt [], by decide, by decide, Or.inr (by decide)⟩

/-- Claim C5 amended: getActiveAppointmentByDoctorId(D) returns an
appointment iff now lies strictly inside the open interval
(start, end) of some stored appointment involving D in either role —
an appointment starting exactly at now is not yet active — and any
returned appointment is such a row; the Option result carries at most
one appointment. -/
theorem c5_active_iff_now_in_open_interval (st : Store) (now : Int) (id : Nat) :
    ((getActiveAppointmentByDoctorId st now id).isSome ↔
      ∃ a ∈ st.appointments, a.startTime < now ∧ now < a.endTime ∧
        (a.remoteDoctorId = id ∨ a.localDoctorId = id))
    ∧ ∀ a, getActiveAppointmentByDoctorId st now id = some a →
        a ∈ st.appointments ∧ a.startTime < now ∧ now < a.endTime ∧
          (a.remoteDoctorId = id ∨ a.localDoctorId = id) := by
  constructor
  · simp only [getActiveAppointmentByDoctorId, List.head?_isSome, ne_eq,
      List.filter_eq_nil_iff, Bool.and_eq_true, decide_eq_true_eq,
      Bool.or_eq_true, beq_iff_eq, gt_iff_lt, not_forall, not_not,
      exists_prop]
    aesop
  · intro a ha
    unfold getActiveAppointmentByDoctorId at ha
    have hmem := List.mem_of_mem_head? ha
    rw [List.mem_filter] at hmem
    obtain ⟨h1, h2⟩ := hmem
    simp only [Bool.and_eq_true, decide_eq_true_eq, Bool.or_eq_true,
      beq_iff_eq, gt_iff_lt] at h2
    exact ⟨h1, h2.1.1, h2.1.2, h2.2⟩

/-- Witness for C5: the returned-row direction evaluated on `c5Store`
at now = 50. -/
theorem c5_active_iff_witness :
    c5Apt ∈ c5Store.appointments ∧ c5Apt.startTime < 50 ∧
      (50 : Int) < c5Apt.endTime ∧
      (c5Apt.remoteDoctorId = 1 ∨ c5Apt.localDoctorId = 1) :=
  (c5_active_iff_now_in_open_interval c5Store 50 1).2 c5Apt rfl

/-- A remote doctor with id 2, the requester of the C6 scenario. -/
def c6Doctor : Doctor := { id := 2, role := .RemoteDoctor }

/-- An appointment at 10:00–10:30 UTC of the epoch day. -/
def c6Apt : Appointment :=
  { id := 1
    link := ""
    startTime := 36000000
    endTime := 37800000
    localDoctorId := 1
    remoteDoctorId := 2
    patientId := 3 }

/-- A store holding `c6Apt` and `c6Doctor`. -/
def c6Store : Store :=
  { appointments := [c6Apt], doctors := [c6Doctor], nextId := 2 }

/-- A future-filter request with offset 0, limit 10. -/
def c6Pag : PaginationOptionsDto :=
  { offset := 0, limit := 10, filter := .future, showAll := false }

/-- Claim C6 counterexample: the same store, clock instant (23:30 UTC),
and request yield different results on a UTC server and on a UTC+1
server — on the latter, start-of-day is 23:00 UTC and the 10:00
appointment falls out of the future window — so query results do
depend on the server's local timezone. -/
theorem c6_counterexample :
    getAllAppointments c6Store 2 c6Pag 84600000 0 = .ok [c6Apt] ∧
    getAllAppointments c6Store 2 c6Pag 84600000 msPerHour = .ok [] ∧
    getAllAppointments c6Store 2 c6Pag 84600000 0 ≠
      getAllAppointments c6Store 2 c6Pag 84600000 msPerHour := by
  refine ⟨rfl, rfl, ?_⟩
  intro h
  rw [show getAllAppointments c6Store 2 c6Pag 84600000 0 = .ok [c6Apt] from rfl,
    show getAllAppointments c6Store 2 c6Pag 84600000 msPerHour = .ok [] from rfl]
    at h
  simp at h

/-- Claim C6 amended: appointment timestamps and now are compared as
instants, but the day boundaries used by the filters come from the
server-local midnight: the query result depends on the timezone offset
exactly through localStartOfDay, and that boundary is UTC-aligned only
at offset zero. -/
theorem c6_day_boundaries_are_local (st : Store) (id : Nat)
    (pag : PaginationOptionsDto) (now tz tz' : Int)
    (h : localStartOfDay now tz = localStartOfDay now tz') :
    getAllAppointments st id pag now tz =
        getAllAppointments st id pag now tz' ∧
    ∀ t : Int, localStartOfDay t 0 = t.fdiv msPerDay * msPerDay := by
  constructor
  · simp only [getAllAppointments, h]
  · intro t
    simp [localStartOfDay]

/-- Witness for C6: two distinct offsets (0 and a whole day) with the
same local midnight give the same result on the C6 store. -/
theorem c6_day_boundaries_witness :
    getAllAppointments c6Store 2 c6Pag 0 0 =
      getAllAppointments c6Store 2 c6Pag 0 msPerDay :=
  (c6_day_boundaries_are_local c6Store 2 c6Pag 0 0 msPerDay (by decide)).1

end MedOn
